import Mathlib

/-!
Shallow embedding of the conversation-state and entitlement engine of
`src/bot.py` (a Telegram psychological-assistant bot).

Modelling conventions:
* The SQLite database is a `DB` record: the `messages` table is a list of
  rows in insertion order (every insert stamps `int(time.time())`, which is
  nondecreasing over a run, so insertion order agrees with `ORDER BY ts`);
  the keyed tables `summaries`, `usage`, `subscriptions` are finite maps
  represented as functions, which also captures their PRIMARY KEY
  uniqueness (at most one row per key).
* `time.time()` / `date.today().isoformat()` are passed in explicitly as a
  `now : Nat` (Unix seconds) and a `td : String` (ISO day) parameter.
* The OpenAI completion client is an oracle `List Turn → Except Unit String`
  passed to each handler; `Except.error` models a raised provider exception.
* Telegram handlers are functions returning the new `DB` together with a
  trace of the effects they performed, in order (`Ev`); an uncaught Python
  exception is modelled by the `raised` flag (the DB mutations already
  committed before the raise are kept, as `sqlite3` commits each helper).
-/

namespace Bot

/-- Constant from src/bot.py line 35. -/
def MAX_HISTORY : Nat := 30

/-- Constant from src/bot.py line 36. -/
def SUMMARY_TRIGGER : Nat := 10

/-- Constant from src/bot.py line 37. -/
def FREE_DAILY_LIMIT : Nat := 20

/-- Constant from src/bot.py line 38. -/
def SUBSCRIPTION_DAYS : Nat := 30

/-- Constant from src/bot.py line 42 (seconds). -/
def SHORT_GAP : Nat := 3 * 24 * 60 * 60

/-- Constant from src/bot.py line 43 (seconds). -/
def LONG_GAP : Nat := 14 * 24 * 60 * 60

/-- The fixed system prompt of the assistant (src/bot.py lines 47-55). -/
def SYSTEM_PROMPT : String :=
  "Ты — поддерживающий психологический ассистент.\nТы отвечаешь мягко, спокойно и рационально.\nТы помогаешь человеку разобраться в своих чувствах и мыслях.\nТы не ставишь диагнозы и не даёшь медицинских или юридических советов.\nТы не осуждаешь и не обесцениваешь чувства.\nТы можешь задавать аккуратные уточняющие вопросы.\nЕсли тема кажется серьёзной или кризисной, мягко рекомендуй обратиться к специалисту."

/-- The dedicated summarization instruction (src/bot.py lines 57-62). -/
def SUMMARY_PROMPT : String :=
  "Сделай краткое, бережное резюме диалога с точки зрения психолога.\nОпиши, что происходит с человеком, какие чувства и темы проявляются.\nБез диагнозов, интерпретаций и советов.\nНейтрально, спокойно, в 3–5 предложениях."

/-- The label prefixed to the summary system turn (src/bot.py line 379). -/
def SUMMARY_LABEL : String := "Краткое резюме предыдущих разговоров:\n"

/-- Fixed limit-reached reply of the chat handler (src/bot.py lines 354-359). -/
def LIMIT_REPLY : String :=
  "Я здесь и готов продолжать разговор.\n\nНа сегодня вы использовали бесплатный лимит сообщений.\nЕсли хотите общаться без ограничений — можно оформить подписку.\n\nЕсли же сейчас тяжело или тревожно — напишите об этом, я отвечу."

/-- Fixed first-contact greeting (src/bot.py lines 280-285). -/
def FIRST_CONTACT_TEXT : String :=
  "Здравствуйте.\n\nЗдесь не нужно подбирать правильные слова или что-то объяснять «как надо».\nЯ постараюсь быть рядом и помочь вам разобраться в том, что сейчас происходит.\n\nПишите столько и так, как вам комфортно."

/-- Fixed long-gap greeting (src/bot.py lines 291-295). -/
def LONG_GAP_TEXT : String :=
  "Прошло некоторое время с нашего последнего разговора.\n\nЕсли вам важно — мы можем спокойно продолжить или начать с того, что сейчас для вас актуально."

/-- Fixed short-gap greeting (src/bot.py lines 297-301). -/
def SHORT_GAP_TEXT : String :=
  "Рада снова быть с вами на связи.\n\nВы можете продолжить с того места, где остановились, или написать о том, что сейчас для вас важно."

/-- Fixed reply of /summary when the user has no history (src/bot.py lines 329-331). -/
def NO_HISTORY_REPLY : String :=
  "Пока у нас ещё не было разговора, который можно было бы обобщить."

/-- One role-tagged turn sent to the completion provider. -/
structure Turn where
  role : String
  content : String
deriving DecidableEq, Repr

/-- One row of the append-only `messages` table (src/bot.py lines 81-88). -/
structure Row where
  user_id : Nat
  role : String
  content : String
  ts : Nat
deriving DecidableEq, Repr

/-- The SQLite database of the bot (src/bot.py lines 81-112): `messages` is
append-only in insertion (= timestamp) order; `summaries` and
`subscriptions` are keyed by `user_id`, `usage` by `(user_id, date)`, so a
function representation captures their PRIMARY KEY uniqueness. -/
structure DB where
  messages : List Row
  summaries : Nat → Option (String × Nat)
  usage : Nat → String → Option Nat
  subscriptions : Nat → Option Nat

/-- Embeds `save_message` (src/bot.py lines 118-123): INSERT appends a row
stamped with the current time. -/
def save_message (db : DB) (user_id : Nat) (role content : String) (now : Nat) : DB :=
  { db with messages := db.messages ++ [⟨user_id, role, content, now⟩] }

/-- The rows of `messages` with `WHERE user_id = ?`, in timestamp
(= insertion) order. -/
def userRows (db : DB) (user_id : Nat) : List Row :=
  db.messages.filter (fun r => r.user_id == user_id)

/-- Embeds `load_last_messages` (src/bot.py lines 126-137): `ORDER BY ts
DESC LIMIT ?` takes from the end of the insertion-ordered row list, and the
Python code then reverses the fetched rows back into chronological order
and keeps only role and content. -/
def load_last_messages (db : DB) (user_id : Nat) (limit : Nat) : List Turn :=
  (((userRows db user_id).reverse.take limit).reverse).map (fun r => ⟨r.role, r.content⟩)

/-- Embeds `has_history` (src/bot.py lines 140-145): SELECT 1 ... LIMIT 1
is a row-existence test. -/
def has_history (db : DB) (user_id : Nat) : Bool :=
  db.messages.any (fun r => r.user_id == user_id)

/-- The rows of `messages` with `WHERE user_id = ? AND role = 'user'`, in
timestamp (= insertion) order. -/
def userMsgRows (db : DB) (user_id : Nat) : List Row :=
  db.messages.filter (fun r => r.user_id == user_id && r.role == "user")

/-- Embeds `get_last_user_ts` (src/bot.py lines 148-159): the timestamp of
the most recent user-authored row, if any. -/
def get_last_user_ts (db : DB) (user_id : Nat) : Option Nat :=
  (userMsgRows db user_id).getLast?.map (fun r => r.ts)

/-- Embeds `count_user_messages` (src/bot.py lines 162-167). -/
def count_user_messages (db : DB) (user_id : Nat) : Nat :=
  (userMsgRows db user_id).length

/-- Embeds `get_summary` (src/bot.py lines 170-176). -/
def get_summary (db : DB) (user_id : Nat) : Option String :=
  (db.summaries user_id).map (fun r => r.1)

/-- Embeds `save_summary` (src/bot.py lines 179-189): upsert keyed on
`user_id`. -/
def save_summary (db : DB) (user_id : Nat) (content : String) (now : Nat) : DB :=
  { db with summaries := fun x => if x == user_id then some (content, now) else db.summaries x }

/-- Embeds `activate_subscription` (src/bot.py lines 206-217): upsert that
overwrites `expires_at` with `now + SUBSCRIPTION_DAYS * 86400`. -/
def activate_subscription (db : DB) (user_id : Nat) (now : Nat) : DB :=
  { db with subscriptions := fun x =>
      if x == user_id then some (now + SUBSCRIPTION_DAYS * 86400) else db.subscriptions x }

/-- Embeds `has_active_subscription` (src/bot.py lines 220-226): a row
exists and its `expires_at` is strictly greater than the current time. -/
def has_active_subscription (db : DB) (user_id : Nat) (now : Nat) : Bool :=
  match db.subscriptions user_id with
  | none => false
  | some e => decide (now < e)

/-- The fixed crisis keyword list (src/bot.py lines 230-233). -/
def CRISIS_KEYWORDS : List String :=
  ["суицид", "умереть", "не хочу жить", "покончить",
   "паника", "очень плохо", "страшно", "тревожно", "бессмысленно"]

/-- Models Python `str.lower` on the character ranges that matter for the
crisis keywords (ASCII letters and the Cyrillic block А-Я, Ё); Python also
lowercases other scripts, but no such character lowercases into the
а-я/space alphabet the keywords are built from, so keyword matching is
unaffected. -/
def pyLower (c : Char) : Char :=
  if 0x41 ≤ c.toNat ∧ c.toNat ≤ 0x5A then Char.ofNat (c.toNat + 0x20)
  else if 0x410 ≤ c.toNat ∧ c.toNat ≤ 0x42F then Char.ofNat (c.toNat + 0x20)
  else if c.toNat = 0x401 then Char.ofNat 0x451
  else c

/-- Lowercase a whole string, character by character, as Python `str.lower`
does for the ranges described at `pyLower`. -/
def pyLowerStr (s : String) : String := ⟨s.data.map pyLower⟩

/-- Models Python `str.strip()` (no argument): remove whitespace from both
ends of the string. -/
def pyStrip (s : String) : String :=
  ⟨((s.data.dropWhile Char.isWhitespace).reverse.dropWhile Char.isWhitespace).reverse⟩

/-- Decides whether `needle` occurs as a contiguous substring of the given
character list (Python `needle in hay`). -/
def hasSub (needle : List Char) : List Char → Bool
  | [] => needle.isEmpty
  | c :: rest => needle.isPrefixOf (c :: rest) || hasSub needle rest

/-- Python `needle in hay` on strings. -/
def strContains (hay needle : String) : Bool :=
  hasSub needle.data hay.data

/-- Embeds `is_crisis` (src/bot.py lines 236-238): lowercase the text and
test each keyword for substring occurrence. -/
def is_crisis (text : String) : Bool :=
  let t := pyLowerStr text
  CRISIS_KEYWORDS.any (fun k => strContains t k)

/-- Embeds `get_usage` (src/bot.py lines 245-251): today's counter row, or
0 when absent. -/
def get_usage (db : DB) (user_id : Nat) (td : String) : Nat :=
  match db.usage user_id td with
  | some c => c
  | none => 0

/-- Embeds `increment_usage` (src/bot.py lines 254-264): upsert keyed on
`(user_id, date)`, inserting 1 or adding 1 to the existing count. -/
def increment_usage (db : DB) (user_id : Nat) (td : String) : DB :=
  { db with usage := fun x d =>
      if x == user_id ∧ d == td then
        some (match db.usage user_id td with
              | some c => c + 1
              | none => 1)
      else db.usage x d }

/-- Embeds `generate_summary` (src/bot.py lines 192-202): prepend the
summarization instruction to the last `MAX_HISTORY` turns, call the
provider (temperature 0.4), and upsert the stripped completion as the
summary; a provider exception propagates. -/
def generate_summary (oracle : List Turn → Except Unit String)
    (db : DB) (user_id : Nat) (now : Nat) : Except Unit DB :=
  let history := load_last_messages db user_id MAX_HISTORY
  let messages := Turn.mk "system" SUMMARY_PROMPT :: history
  match oracle messages with
  | Except.error e => Except.error e
  | Except.ok resp => Except.ok (save_summary db user_id (pyStrip resp) now)

/-- Python truthiness of the `summary` variable (`if summary:` /
`if not summary:`): `None` and the empty string are falsy. -/
def pyTruthy : Option String → Bool
  | none => false
  | some s => !(s == "")

/-- The prompt assembled by the chat handler (src/bot.py lines 372-382):
the fixed system turn, then — when the stored summary is truthy — one
labelled summary system turn, then the last `MAX_HISTORY` turns in
chronological order. -/
def buildMessages (db : DB) (user_id : Nat) : List Turn :=
  let history := load_last_messages db user_id MAX_HISTORY
  let summary := get_summary db user_id
  let base : List Turn := [⟨"system", SYSTEM_PROMPT⟩]
  let withSummary :=
    match summary with
    | some s => if s == "" then base else base ++ [⟨"system", SUMMARY_LABEL ++ s⟩]
    | none => base
  withSummary ++ history

/-- One observable effect of a handler run, in execution order. -/
inductive Ev where
  | persistUser : Ev
  | incUsage : Ev
  | summaryAttempt : Ev
  | completionCall : Ev
  | persistAssistant : Ev
  | reply : String → Ev
deriving DecidableEq, Repr

/-- Result of one run of the chat handler: the final database, the ordered
effect trace, and whether the handler ended in an uncaught exception. -/
structure ChatOut where
  db : DB
  events : List Ev
  raised : Bool

/-- The entitlement guard of the chat handler (src/bot.py lines 351-353):
deny exactly when there is no active subscription, today's usage has
reached `FREE_DAILY_LIMIT`, and the text is not a crisis message. -/
def deny_guard (db : DB) (user_id : Nat) (user_text : String) (now : Nat) (td : String) : Bool :=
  !has_active_subscription db user_id now &&
    (decide (FREE_DAILY_LIMIT ≤ get_usage db user_id td) && !is_crisis user_text)

/-- Stage 1 of the admitted chat path (src/bot.py line 362): the state
after the user message is persisted (the local `db` right after
`save_message(user_id, "user", user_text)`). -/
def chat_db1 (db : DB) (user_id : Nat) (user_text : String) (now : Nat) : DB :=
  save_message db user_id "user" user_text now

/-- Stage 2 (src/bot.py lines 363-364): the state after today's usage is
incremented unless the user has an active subscription (the subscription is
re-checked after persisting, as in the source). -/
def chat_db2 (db : DB) (user_id : Nat) (user_text : String) (now : Nat) (td : String) : DB :=
  let db1 := chat_db1 db user_id user_text now
  if !has_active_subscription db1 user_id now then increment_usage db1 user_id td else db1

/-- The summarization trigger test (src/bot.py line 366), evaluated on the
post-persist state. -/
def chat_trig (db : DB) (user_id : Nat) (user_text : String) (now : Nat) (td : String) : Bool :=
  count_user_messages (chat_db2 db user_id user_text now td) user_id % SUMMARY_TRIGGER == 0

/-- Stage 3 (src/bot.py lines 366-370): on trigger, attempt background
summarization, swallowing any provider exception. -/
def chat_db3 (oracle : List Turn → Except Unit String) (db : DB) (user_id : Nat)
    (user_text : String) (now : Nat) (td : String) : DB :=
  let db2 := chat_db2 db user_id user_text now td
  if chat_trig db user_id user_text now td then
    match generate_summary oracle db2 user_id now with
    | Except.ok d => d
    | Except.error _ => db2
  else db2

/-- The effect trace of the admitted path up to and including the provider
call, in source order (src/bot.py lines 362-388): persist, conditional
increment, conditional summarization attempt, completion call. -/
def chat_events_pre (db : DB) (user_id : Nat) (user_text : String) (now : Nat)
    (td : String) : List Ev :=
  Ev.persistUser ::
    ((if !has_active_subscription (chat_db1 db user_id user_text now) user_id now then
        [Ev.incUsage]
      else []) ++
      (if chat_trig db user_id user_text now td then [Ev.summaryAttempt] else []) ++
      [Ev.completionCall])

/-- Stage 4 (src/bot.py lines 384-392): call the provider (temperature 0.6)
on the assembled prompt; on success persist and send the answer, on an
exception abort the handler keeping the writes already committed. -/
def chat_finish (oracle : List Turn → Except Unit String) (db3 : DB) (user_id : Nat)
    (evs : List Ev) (now : Nat) : ChatOut :=
  match oracle (buildMessages db3 user_id) with
  | Except.error _ => { db := db3, events := evs, raised := true }
  | Except.ok answer =>
    { db := save_message db3 user_id "assistant" answer now,
      events := evs ++ [Ev.persistAssistant, Ev.reply answer],
      raised := false }

/-- Embeds the `chat` handler (src/bot.py lines 347-392): strip the
incoming text; on denial send the fixed limit reply and return; otherwise
run the staged admitted path. Both subscription checks and both row
timestamps within one run use the same `now`, the wall clock of that run. -/
def chat (oracle : List Turn → Except Unit String) (db : DB) (user_id : Nat)
    (text0 : String) (now : Nat) (td : String) : ChatOut :=
  let user_text := pyStrip text0
  if deny_guard db user_id user_text now td then
    { db := db, events := [Ev.reply LIMIT_REPLY], raised := false }
  else
    chat_finish oracle (chat_db3 oracle db user_id user_text now td) user_id
      (chat_events_pre db user_id user_text now td) now

/-- Result of one run of a command handler. -/
structure CmdOut where
  db : DB
  replies : List String
  raised : Bool

/-- Python `f"{summary}"`: formats `None` as the string "None". -/
def pyStrOpt : Option String → String
  | none => "None"
  | some s => s

/-- The /summary reply around the summary body (src/bot.py lines 339-344). -/
def summary_reply (s : Option String) : String :=
  "Вот как я сейчас вижу общую картину нашего разговора.\n\n" ++ pyStrOpt s ++
    "\n\nЕсли что-то откликается — можно продолжить с этого места.\nЕсли нет — вы можете поправить или написать о том, что сейчас важнее."

/-- Embeds the `summary_command` handler (src/bot.py lines 325-344): with
no history, a fixed reply; with a falsy stored summary, generate one
synchronously — an uncaught provider exception aborts the handler with no
reply sent — then answer with the (re-read) summary. -/
def summary_command (oracle : List Turn → Except Unit String)
    (db : DB) (user_id now : Nat) : CmdOut :=
  if !has_history db user_id then
    { db := db, replies := [NO_HISTORY_REPLY], raised := false }
  else
    let summary := get_summary db user_id
    if !pyTruthy summary then
      match generate_summary oracle db user_id now with
      | Except.error _ => { db := db, replies := [], raised := true }
      | Except.ok db1 =>
        { db := db1, replies := [summary_reply (get_summary db1 user_id)], raised := false }
    else
      { db := db, replies := [summary_reply summary], raised := false }

/-- Embeds the `start` handler (src/bot.py lines 276-303): the greeting
text sent to the user. Line 288 is
`gap = time.time() - last_ts if last_ts else 0` — a Python truthiness test
on `last_ts`, so both `None` and a timestamp of exactly `0` fall to the
`gap = 0` branch. -/
def start (db : DB) (user_id : Nat) (now : Nat) : String :=
  if !has_history db user_id then FIRST_CONTACT_TEXT
  else
    let last_ts := get_last_user_ts db user_id
    let gap : Int :=
      match last_ts with
      | some t => if t == 0 then 0 else (now : Int) - (t : Int)
      | none => 0
    if (LONG_GAP : Int) < gap then LONG_GAP_TEXT else SHORT_GAP_TEXT

/-- Modelled from the spec (§4.1), for the refinement claim C1: the ordered
entitlement rule — an active subscription allows unconditionally; otherwise
usage below `FREE_DAILY_LIMIT` allows; otherwise a crisis message allows as
an override; otherwise deny. -/
def spec_allow (db : DB) (user_id : Nat) (user_text : String) (now : Nat) (td : String) : Bool :=
  if has_active_subscription db user_id now then true
  else if get_usage db user_id td < FREE_DAILY_LIMIT then true
  else if is_crisis user_text then true
  else false

/-- An oracle standing for a completion provider that always fails. -/
def failOracle : List Turn → Except Unit String := fun _ => Except.error ()

/-- An oracle standing for a completion provider that always answers. -/
def okOracle : List Turn → Except Unit String := fun _ => Except.ok "Хорошо."

/-- A fresh database with no rows at all. -/
def dbEmpty : DB :=
  { messages := [], summaries := fun _ => none, usage := fun _ _ => none,
    subscriptions := fun _ => none }

/-- A database where user 7 has used all 20 free messages on day "d". -/
def dbAtLimit : DB :=
  { messages := [], summaries := fun _ => none,
    usage := fun x d => if x == 7 ∧ d == "d" then some 20 else none,
    subscriptions := fun _ => none }

/-- A database where user 7 has exactly one user-authored message at time 5. -/
def dbOneMsg : DB :=
  { messages := [⟨7, "user", "привет", 5⟩], summaries := fun _ => none,
    usage := fun _ _ => none, subscriptions := fun _ => none }

/-- A database where user 7 has nine user-authored messages. -/
def dbNineMsgs : DB :=
  { messages := (List.range 9).map (fun i => ⟨7, "user", "привет", i⟩),
    summaries := fun _ => none, usage := fun _ _ => none,
    subscriptions := fun _ => none }

/-- A database where user 7 has a stored Summary row whose content is the
empty string. -/
def dbEmptySummary : DB :=
  { messages := [], summaries := fun x => if x == 7 then some ("", 5) else none,
    usage := fun _ _ => none, subscriptions := fun _ => none }

/-- A database where user 7 has a stored non-empty Summary and one message. -/
def dbWithSummary : DB :=
  { messages := [⟨7, "user", "привет", 5⟩],
    summaries := fun x => if x == 7 then some ("резюме", 6) else none,
    usage := fun _ _ => none, subscriptions := fun _ => none }

/-- A database where user 7 has exactly one user-authored message whose
timestamp is 0, the Unix epoch — a falsy value under Python truthiness. -/
def dbEpochMsg : DB :=
  { messages := [⟨7, "user", "привет", 0⟩], summaries := fun _ => none,
    usage := fun _ _ => none, subscriptions := fun _ => none }

/-- A database where user 7 holds an active-until-time-1000 subscription. -/
def dbSubscribed : DB :=
  { messages := [], summaries := fun _ => none, usage := fun _ _ => none,
    subscriptions := fun x => if x == 7 then some 1000 else none }

theorem save_message_messages (db : DB) (u : Nat) (r c : String) (n : Nat) :
    (save_message db u r c n).messages = db.messages ++ [⟨u, r, c, n⟩] := rfl

theorem save_message_usage (db : DB) (u : Nat) (r c : String) (n : Nat) :
    (save_message db u r c n).usage = db.usage := rfl

theorem save_message_subscriptions (db : DB) (u : Nat) (r c : String) (n : Nat) :
    (save_message db u r c n).subscriptions = db.subscriptions := rfl

theorem increment_usage_messages (db : DB) (u : Nat) (td : String) :
    (increment_usage db u td).messages = db.messages := rfl

theorem has_active_subscription_chat_db1 (db : DB) (u v : Nat) (ut : String) (now m : Nat) :
    has_active_subscription (chat_db1 db u ut now) v m = has_active_subscription db v m := rfl

theorem get_usage_chat_db1 (db : DB) (u v : Nat) (ut : String) (now : Nat) (d : String) :
    get_usage (chat_db1 db u ut now) v d = get_usage db v d := rfl

theorem get_usage_save_message (db : DB) (u v : Nat) (r c : String) (n : Nat) (d : String) :
    get_usage (save_message db u r c n) v d = get_usage db v d := rfl

theorem get_usage_increment (db : DB) (u : Nat) (td : String) :
    get_usage (increment_usage db u td) u td = get_usage db u td + 1 := by
  unfold get_usage increment_usage
  simp only [beq_self_eq_true, and_self, if_true]
  cases h : db.usage u td <;> simp [h]

theorem count_user_messages_increment (db : DB) (u v : Nat) (td : String) :
    count_user_messages (increment_usage db u td) v = count_user_messages db v := rfl

theorem count_user_messages_chat_db1 (db : DB) (u : Nat) (ut : String) (now : Nat) :
    count_user_messages (chat_db1 db u ut now) u = count_user_messages db u + 1 := by
  unfold chat_db1 count_user_messages userMsgRows save_message
  simp

theorem chat_db2_messages (db : DB) (u : Nat) (ut : String) (now : Nat) (td : String) :
    (chat_db2 db u ut now td).messages = db.messages ++ [⟨u, "user", ut, now⟩] := by
  unfold chat_db2
  dsimp only
  split <;> rfl

theorem chat_db2_usage_free (db : DB) (u : Nat) (ut : String) (now : Nat) (td : String)
    (h : has_active_subscription db u now = false) :
    get_usage (chat_db2 db u ut now td) u td = get_usage db u td + 1 := by
  unfold chat_db2
  simp only [has_active_subscription_chat_db1, h, Bool.not_false, if_true]
  rw [get_usage_increment, get_usage_chat_db1]

theorem chat_db2_usage_sub (db : DB) (u : Nat) (ut : String) (now : Nat) (td : String)
    (h : has_active_subscription db u now = true) :
    (chat_db2 db u ut now td).usage = db.usage := by
  unfold chat_db2
  simp only [has_active_subscription_chat_db1, h, Bool.not_true, if_false]
  rfl

theorem count_user_messages_chat_db2 (db : DB) (u : Nat) (ut : String) (now : Nat)
    (td : String) :
    count_user_messages (chat_db2 db u ut now td) u = count_user_messages db u + 1 := by
  unfold chat_db2
  dsimp only
  split
  · rw [count_user_messages_increment, count_user_messages_chat_db1]
  · rw [count_user_messages_chat_db1]

theorem chat_trig_eq (db : DB) (u : Nat) (ut : String) (now : Nat) (td : String) :
    chat_trig db u ut now td = ((count_user_messages db u + 1) % SUMMARY_TRIGGER == 0) := by
  unfold chat_trig
  rw [count_user_messages_chat_db2]

theorem generate_summary_ok_messages {o : List Turn → Except Unit String} {db : DB}
    {u now : Nat} {d : DB} (h : generate_summary o db u now = Except.ok d) :
    d.messages = db.messages := by
  unfold generate_summary at h
  dsimp only at h
  cases ho : o (Turn.mk "system" SUMMARY_PROMPT :: load_last_messages db u MAX_HISTORY) with
  | error e => rw [ho] at h; cases h
  | ok resp => rw [ho] at h; cases h; rfl

theorem generate_summary_ok_usage {o : List Turn → Except Unit String} {db : DB}
    {u now : Nat} {d : DB} (h : generate_summary o db u now = Except.ok d) :
    d.usage = db.usage := by
  unfold generate_summary at h
  dsimp only at h
  cases ho : o (Turn.mk "system" SUMMARY_PROMPT :: load_last_messages db u MAX_HISTORY) with
  | error e => rw [ho] at h; cases h
  | ok resp => rw [ho] at h; cases h; rfl

theorem chat_db3_messages (o : List Turn → Except Unit String) (db : DB) (u : Nat)
    (ut : String) (now : Nat) (td : String) :
    (chat_db3 o db u ut now td).messages = (chat_db2 db u ut now td).messages := by
  unfold chat_db3
  dsimp only
  split
  · cases hg : generate_summary o (chat_db2 db u ut now td) u now with
    | error e => rfl
    | ok d => exact generate_summary_ok_messages hg
  · rfl

theorem chat_db3_usage (o : List Turn → Except Unit String) (db : DB) (u : Nat)
    (ut : String) (now : Nat) (td : String) :
    (chat_db3 o db u ut now td).usage = (chat_db2 db u ut now td).usage := by
  unfold chat_db3
  dsimp only
  split
  · cases hg : generate_summary o (chat_db2 db u ut now td) u now with
    | error e => rfl
    | ok d => exact generate_summary_ok_usage hg
  · rfl

theorem chat_finish_error {o : List Turn → Except Unit String} {d : DB} {u : Nat}
    {evs : List Ev} {now : Nat} {e : Unit} (h : o (buildMessages d u) = Except.error e) :
    chat_finish o d u evs now = { db := d, events := evs, raised := true } := by
  unfold chat_finish
  rw [h]

theorem chat_finish_ok {o : List Turn → Except Unit String} {d : DB} {u : Nat}
    {evs : List Ev} {now : Nat} {a : String} (h : o (buildMessages d u) = Except.ok a) :
    chat_finish o d u evs now =
      { db := save_message d u "assistant" a now,
        events := evs ++ [Ev.persistAssistant, Ev.reply a], raised := false } := by
  unfold chat_finish
  rw [h]

theorem chat_finish_events (o : List Turn → Except Unit String) (d : DB) (u : Nat)
    (evs : List Ev) (now : Nat) :
    ∃ tl, (chat_finish o d u evs now).events = evs ++ tl ∧
      (tl = [] ∨ ∃ s, tl = [Ev.persistAssistant, Ev.reply s]) := by
  unfold chat_finish
  cases ho : o (buildMessages d u) with
  | error e => exact ⟨[], by simp, Or.inl rfl⟩
  | ok a => exact ⟨[Ev.persistAssistant, Ev.reply a], rfl, Or.inr ⟨a, rfl⟩⟩

theorem chat_finish_db_usage (o : List Turn → Except Unit String) (d : DB) (u : Nat)
    (evs : List Ev) (now : Nat) :
    (chat_finish o d u evs now).db.usage = d.usage := by
  unfold chat_finish
  cases ho : o (buildMessages d u) <;> rfl

theorem get_usage_chat_finish (o : List Turn → Except Unit String) (d : DB) (u : Nat)
    (evs : List Ev) (now v : Nat) (td : String) :
    get_usage (chat_finish o d u evs now).db v td = get_usage d v td := by
  unfold get_usage
  rw [chat_finish_db_usage]

theorem get_usage_chat_db3 (o : List Turn → Except Unit String) (db : DB) (u : Nat)
    (ut : String) (now : Nat) (td : String) (v : Nat) (d : String) :
    get_usage (chat_db3 o db u ut now td) v d = get_usage (chat_db2 db u ut now td) v d := by
  unfold get_usage
  rw [chat_db3_usage]

theorem has_history_of_last_ts {db : DB} {u t : Nat}
    (h : get_last_user_ts db u = some t) : has_history db u = true := by
  unfold get_last_user_ts at h
  cases hl : (userMsgRows db u).getLast? with
  | none => rw [hl] at h; cases h
  | some r =>
    have hr : r ∈ userMsgRows db u := by
      obtain ⟨hne, heq⟩ :=
        List.mem_getLast?_eq_getLast (l := userMsgRows db u) (x := r)
          (by rw [Option.mem_def, hl])
      rw [heq]
      exact List.getLast_mem hne
    have hr' : r ∈ db.messages.filter (fun q => q.user_id == u && q.role == "user") := hr
    have hp := List.of_mem_filter hr'
    simp only [Bool.and_eq_true] at hp
    unfold has_history
    exact List.any_eq_true.mpr ⟨r, List.mem_of_mem_filter hr', hp.1⟩

theorem load_last_messages_eq_drop (db : DB) (u n : Nat) :
    load_last_messages db u n =
      ((userRows db u).drop ((userRows db u).length - n)).map
        (fun r => Turn.mk r.role r.content) := by
  unfold load_last_messages
  rw [← List.rtake_eq_reverse_take_reverse]
  rfl

theorem load_last_messages_length_le (db : DB) (u n : Nat) :
    (load_last_messages db u n).length ≤ n := by
  rw [load_last_messages_eq_drop]
  simp only [List.length_map, List.length_drop]
  omega

theorem buildMessages_length_le (db : DB) (u : Nat) :
    (buildMessages db u).length ≤ 2 + MAX_HISTORY := by
  have h := load_last_messages_length_le db u MAX_HISTORY
  unfold buildMessages
  cases hsum : get_summary db u with
  | none => simp; omega
  | some s =>
    cases hse : s == "" <;> (simp [hse]; omega)

theorem spec_allow_eq_not_deny (db : DB) (u : Nat) (ut : String) (now : Nat) (td : String) :
    spec_allow db u ut now td = !deny_guard db u ut now td := by
  unfold spec_allow deny_guard
  cases h1 : has_active_subscription db u now <;>
    cases h2 : is_crisis ut <;>
      by_cases h3 : get_usage db u td < FREE_DAILY_LIMIT <;>
        simp [h1, h2, h3] <;> omega

theorem chat_deny {o : List Turn → Except Unit String} {db : DB} {u : Nat} {t0 : String}
    {now : Nat} {td : String} (h : deny_guard db u (pyStrip t0) now td = true) :
    chat o db u t0 now td = { db := db, events := [Ev.reply LIMIT_REPLY], raised := false } := by
  unfold chat
  simp [h]

theorem chat_not_denied {o : List Turn → Except Unit String} {db : DB} {u : Nat} {t0 : String}
    {now : Nat} {td : String} (h : deny_guard db u (pyStrip t0) now td = false) :
    chat o db u t0 now td =
      chat_finish o (chat_db3 o db u (pyStrip t0) now td) u
        (chat_events_pre db u (pyStrip t0) now td) now := by
  unfold chat
  simp [h]

/-- C1: for every incoming user text message, the entitlement decision of
the chat handler (the message is admitted, i.e. persisted, rather than
denied) agrees with the spec's ordered rule: active subscription allows
unconditionally; otherwise usage below `FREE_DAILY_LIMIT` allows; otherwise
a crisis-keyword message allows as an override; otherwise deny. -/
theorem entitlement_decision_matches_spec (o : List Turn → Except Unit String)
    (db : DB) (u : Nat) (t0 : String) (now : Nat) (td : String) :
    (Ev.persistUser ∈ (chat o db u t0 now td).events) ↔
      spec_allow db u (pyStrip t0) now td = true := by
  cases hd : deny_guard db u (pyStrip t0) now td with
  | false =>
    rw [chat_not_denied hd, spec_allow_eq_not_deny, hd]
    simp only [Bool.not_false, iff_true]
    obtain ⟨tl, htl, _⟩ :=
      chat_finish_events o (chat_db3 o db u (pyStrip t0) now td) u
        (chat_events_pre db u (pyStrip t0) now td) now
    rw [htl]
    unfold chat_events_pre
    simp
  | true =>
    rw [chat_deny hd, spec_allow_eq_not_deny, hd]
    simp

/-- C2: whenever a message is denied (no active subscription, usage at or
over `FREE_DAILY_LIMIT`, text not matching the crisis heuristic), the chat
handler sends the fixed limit-reached reply and returns with the state
unchanged: nothing is persisted, the counter is not incremented, no summary
is generated, and the provider is never invoked (the outcome does not
depend on the oracle and records no completion-call effect). -/
theorem denied_message_fixed_reply_state_unchanged (o : List Turn → Except Unit String)
    (db : DB) (u : Nat) (t0 : String) (now : Nat) (td : String)
    (hsub : has_active_subscription db u now = false)
    (husage : FREE_DAILY_LIMIT ≤ get_usage db u td)
    (hcrisis : is_crisis (pyStrip t0) = false) :
    chat o db u t0 now td = { db := db, events := [Ev.reply LIMIT_REPLY], raised := false } := by
  apply chat_deny
  unfold deny_guard
  simp [hsub, husage, hcrisis]

/-- Witness for C2 at a concrete over-quota state. -/
theorem denied_message_witness :
    has_active_subscription dbAtLimit 7 100 = false ∧
    FREE_DAILY_LIMIT ≤ get_usage dbAtLimit 7 "d" ∧
    is_crisis (pyStrip "привет") = false ∧
    (chat okOracle dbAtLimit 7 "привет" 100 "d").events = [Ev.reply LIMIT_REPLY] := by
  refine ⟨by decide, by decide, by decide, ?_⟩
  rw [denied_message_fixed_reply_state_unchanged okOracle dbAtLimit 7 "привет" 100 "d"
    (by decide) (by decide) (by decide)]

/-- C8: payment-confirmation activation upserts the user's single
Subscription row with `expires_at = now + SUBSCRIPTION_DAYS` days of
seconds, overwriting rather than extending: after two calls in succession
the expiry is `now + 30` days measured from the second call, with no
stacking of remaining time. -/
theorem subscription_overwrites_not_stacks (db : DB) (u n1 n2 : Nat) :
    (activate_subscription db u n1).subscriptions u
        = some (n1 + SUBSCRIPTION_DAYS * 86400) ∧
    (activate_subscription (activate_subscription db u n1) u n2).subscriptions u
        = some (n2 + SUBSCRIPTION_DAYS * 86400) := by
  constructor <;> (unfold activate_subscription; simp)

/-- C9 counterexample: at a concrete state whose most recent user-authored
timestamp is 0 and with now = LONG_GAP + 1, the claimed rule gives
gap = now − 0 > LONG_GAP, hence the long-gap greeting — but the handler,
by Python truthiness of `last_ts` (src/bot.py line 288), computes gap = 0
and sends the short-gap greeting. -/
theorem greeting_zero_ts_counterexample :
    get_last_user_ts dbEpochMsg 7 = some 0 ∧
    (LONG_GAP : Int) < ((LONG_GAP + 1 : Nat) : Int) - ((0 : Nat) : Int) ∧
    start dbEpochMsg 7 (LONG_GAP + 1) = SHORT_GAP_TEXT ∧
    SHORT_GAP_TEXT ≠ LONG_GAP_TEXT := by
  refine ⟨rfl, by decide, ?_, by decide⟩
  rfl

/-- C9 as amended: the greeting classification is a three-way total
function: first-contact text exactly when the user has no Message rows at
all; otherwise, when the most recent user-authored timestamp t is nonzero,
gap = now − t selects the long-gap text when it exceeds `LONG_GAP` and the
short-gap text otherwise; a most recent timestamp of exactly 0 is falsy in
Python, so gap is taken as 0 and the short-gap text is sent regardless of
now; the three fixed greeting texts are pairwise distinct. -/
theorem greeting_classification (db : DB) (u now : Nat) :
    (has_history db u = false → start db u now = FIRST_CONTACT_TEXT) ∧
    (start db u now = FIRST_CONTACT_TEXT → has_history db u = false) ∧
    (∀ t, get_last_user_ts db u = some t → (t == 0) = false →
      start db u now =
        if (LONG_GAP : Int) < (now : Int) - (t : Int) then LONG_GAP_TEXT
        else SHORT_GAP_TEXT) ∧
    (get_last_user_ts db u = some 0 → start db u now = SHORT_GAP_TEXT) ∧
    (FIRST_CONTACT_TEXT ≠ LONG_GAP_TEXT ∧ FIRST_CONTACT_TEXT ≠ SHORT_GAP_TEXT ∧
      LONG_GAP_TEXT ≠ SHORT_GAP_TEXT) := by
  refine ⟨?_, ?_, ?_, ?_, by decide, by decide, by decide⟩
  · intro h
    unfold start
    simp [h]
  · intro h
    cases hh : has_history db u with
    | false => rfl
    | true =>
      unfold start at h
      rw [hh] at h
      simp only [Bool.not_true, Bool.false_eq_true, if_false] at h
      split at h
      · exact absurd h (by decide)
      · exact absurd h (by decide)
  · intro t ht htz
    unfold start
    rw [has_history_of_last_ts ht]
    simp [ht, htz]
  · intro h0
    unfold start
    rw [has_history_of_last_ts h0]
    simp [h0]

/-- Witness for C9 as amended, at a concrete returning user with a nonzero
timestamp and a sub-`LONG_GAP` gap. -/
theorem greeting_classification_witness :
    get_last_user_ts dbOneMsg 7 = some 5 ∧ start dbOneMsg 7 100 = SHORT_GAP_TEXT := by
  refine ⟨rfl, ?_⟩
  have h := (greeting_classification dbOneMsg 7 100).2.2.1 5 rfl (by decide)
  rw [h, if_neg (by decide)]

/-- C3: for every admitted message of a user without an active
subscription, the daily usage counter for (user, today) ends exactly one
higher, the increment effect is recorded exactly once, directly after the
persist effect and before the completion-call effect — independent of the
oracle, hence of any downstream completion failure; with an active
subscription the counter is never incremented. -/
theorem free_tier_usage_counted_once (o : List Turn → Except Unit String)
    (db : DB) (u : Nat) (t0 : String) (now : Nat) (td : String)
    (hadm : deny_guard db u (pyStrip t0) now td = false) :
    (has_active_subscription db u now = false →
      (chat o db u t0 now td).events.count Ev.incUsage = 1 ∧
      (chat o db u t0 now td).events.take 2 = [Ev.persistUser, Ev.incUsage] ∧
      Ev.completionCall ∈ (chat o db u t0 now td).events.drop 2 ∧
      get_usage (chat o db u t0 now td).db u td = get_usage db u td + 1) ∧
    (has_active_subscription db u now = true →
      Ev.incUsage ∉ (chat o db u t0 now td).events ∧
      get_usage (chat o db u t0 now td).db u td = get_usage db u td) := by
  rw [chat_not_denied hadm]
  obtain ⟨tl, htl, htl2⟩ :=
    chat_finish_events o (chat_db3 o db u (pyStrip t0) now td) u
      (chat_events_pre db u (pyStrip t0) now td) now
  constructor
  · intro hs
    have hpre : chat_events_pre db u (pyStrip t0) now td =
        Ev.persistUser :: Ev.incUsage ::
          ((if chat_trig db u (pyStrip t0) now td then [Ev.summaryAttempt] else []) ++
            [Ev.completionCall]) := by
      unfold chat_events_pre
      rw [has_active_subscription_chat_db1, hs]
      simp
    refine ⟨?_, ?_, ?_, ?_⟩
    · rw [htl, hpre]
      rcases htl2 with rfl | ⟨s, rfl⟩ <;>
        cases htr : chat_trig db u (pyStrip t0) now td <;>
          simp [htr, List.count_cons, List.count_append]
    · rw [htl, hpre]
      simp
    · rw [htl, hpre]
      cases htr : chat_trig db u (pyStrip t0) now td <;> simp [htr]
    · rw [get_usage_chat_finish, get_usage_chat_db3,
        chat_db2_usage_free db u (pyStrip t0) now td hs]
  · intro hs
    have hpre : chat_events_pre db u (pyStrip t0) now td =
        Ev.persistUser ::
          ((if chat_trig db u (pyStrip t0) now td then [Ev.summaryAttempt] else []) ++
            [Ev.completionCall]) := by
      unfold chat_events_pre
      rw [has_active_subscription_chat_db1, hs]
      simp
    constructor
    · rw [htl, hpre]
      rcases htl2 with rfl | ⟨s, rfl⟩ <;>
        cases htr : chat_trig db u (pyStrip t0) now td <;>
          simp [htr]
    · rw [get_usage_chat_finish, get_usage_chat_db3]
      unfold get_usage
      rw [chat_db2_usage_sub db u (pyStrip t0) now td hs]

/-- Witness for C3 at a concrete free-tier state under quota. -/
theorem free_tier_usage_witness :
    deny_guard dbEmpty 7 (pyStrip "привет") 100 "d" = false ∧
    has_active_subscription dbEmpty 7 100 = false ∧
    (chat okOracle dbEmpty 7 "привет" 100 "d").events.count Ev.incUsage = 1 ∧
    get_usage (chat okOracle dbEmpty 7 "привет" 100 "d").db 7 "d" =
      get_usage dbEmpty 7 "d" + 1 := by
  have h := free_tier_usage_counted_once okOracle dbEmpty 7 "привет" 100 "d" (by decide)
  exact ⟨by decide, by decide, (h.1 (by decide)).1, (h.1 (by decide)).2.2.2⟩

/-- C10: a crisis-override message admitted while the user is at or over
the daily quota still increments the daily usage counter: the increment is
unconditional for admitted non-subscriber messages, crisis or not. -/
theorem crisis_override_still_increments (o : List Turn → Except Unit String)
    (db : DB) (u : Nat) (t0 : String) (now : Nat) (td : String)
    (hsub : has_active_subscription db u now = false)
    (husage : FREE_DAILY_LIMIT ≤ get_usage db u td)
    (hcrisis : is_crisis (pyStrip t0) = true) :
    Ev.incUsage ∈ (chat o db u t0 now td).events ∧
    get_usage (chat o db u t0 now td).db u td = get_usage db u td + 1 := by
  have hadm : deny_guard db u (pyStrip t0) now td = false := by
    unfold deny_guard
    simp [hcrisis]
  rw [chat_not_denied hadm]
  constructor
  · obtain ⟨tl, htl, _⟩ :=
      chat_finish_events o (chat_db3 o db u (pyStrip t0) now td) u
        (chat_events_pre db u (pyStrip t0) now td) now
    rw [htl]
    unfold chat_events_pre
    rw [has_active_subscription_chat_db1, hsub]
    simp
  · rw [get_usage_chat_finish, get_usage_chat_db3,
      chat_db2_usage_free db u (pyStrip t0) now td hsub]

/-- Witness for C10: a crisis message at the exact quota boundary. -/
theorem crisis_override_witness :
    has_active_subscription dbAtLimit 7 100 = false ∧
    FREE_DAILY_LIMIT ≤ get_usage dbAtLimit 7 "d" ∧
    is_crisis (pyStrip "мне тревожно") = true ∧
    get_usage (chat okOracle dbAtLimit 7 "мне тревожно" 100 "d").db 7 "d" =
      get_usage dbAtLimit 7 "d" + 1 := by
  have h := crisis_override_still_increments okOracle dbAtLimit 7 "мне тревожно" 100 "d"
    (by decide) (by decide) (by decide)
  exact ⟨by decide, by decide, by decide, h.2⟩

/-- C4: after an admitted user message is persisted, background
summarization is attempted if and only if the total count of the user's
user-authored messages — including the just-persisted one, which is one
more than before — is divisible by `SUMMARY_TRIGGER`. -/
theorem summarization_trigger_iff (o : List Turn → Except Unit String)
    (db : DB) (u : Nat) (t0 : String) (now : Nat) (td : String)
    (hadm : deny_guard db u (pyStrip t0) now td = false) :
    count_user_messages (chat_db1 db u (pyStrip t0) now) u = count_user_messages db u + 1 ∧
    (Ev.summaryAttempt ∈ (chat o db u t0 now td).events ↔
      count_user_messages (chat_db1 db u (pyStrip t0) now) u % SUMMARY_TRIGGER = 0) := by
  refine ⟨count_user_messages_chat_db1 db u (pyStrip t0) now, ?_⟩
  rw [chat_not_denied hadm]
  obtain ⟨tl, htl, htl2⟩ :=
    chat_finish_events o (chat_db3 o db u (pyStrip t0) now td) u
      (chat_events_pre db u (pyStrip t0) now td) now
  rw [htl]
  unfold chat_events_pre
  rw [count_user_messages_chat_db1]
  have hct : chat_trig db u (pyStrip t0) now td =
      ((count_user_messages db u + 1) % SUMMARY_TRIGGER == 0) :=
    chat_trig_eq db u (pyStrip t0) now td
  cases htr : chat_trig db u (pyStrip t0) now td with
  | true =>
    rw [htr] at hct
    have : (count_user_messages db u + 1) % SUMMARY_TRIGGER = 0 :=
      beq_iff_eq.mp hct.symm
    simp [htr, this]
  | false =>
    rw [htr] at hct
    have hne : ¬ (count_user_messages db u + 1) % SUMMARY_TRIGGER = 0 := by
      intro hc
      rw [hc] at hct
      simp at hct
    rcases htl2 with rfl | ⟨s, rfl⟩ <;>
      cases hc1 : !has_active_subscription (chat_db1 db u (pyStrip t0) now) u now <;>
        simp [htr, hc1, hne]

/-- Witness for C4: the tenth user message fires the summarization
attempt. -/
theorem summarization_trigger_witness :
    deny_guard dbNineMsgs 7 (pyStrip "привет") 100 "d" = false ∧
    count_user_messages dbNineMsgs 7 = 9 ∧
    Ev.summaryAttempt ∈ (chat okOracle dbNineMsgs 7 "привет" 100 "d").events := by
  have h := summarization_trigger_iff okOracle dbNineMsgs 7 "привет" 100 "d" (by decide)
  exact ⟨by decide, by decide, h.2.mpr (by decide)⟩

/-- C5 counterexample: at a concrete admitted message with a failing
completion provider, the chat handler raises and its effect trace contains
no reply of any kind — in particular the user does not receive the fixed
apology message the claim asserts. -/
theorem completion_failure_no_apology_counterexample :
    (chat failOracle dbEmpty 7 "привет" 100 "d").events =
        [Ev.persistUser, Ev.incUsage, Ev.completionCall] ∧
    (chat failOracle dbEmpty 7 "привет" 100 "d").raised = true := by
  exact ⟨by decide, by decide⟩

/-- C5 as amended: when the completion provider fails on the main chat path
after the message was admitted and persisted, the handler ends in an
uncaught exception, sends no reply at all (in particular no apology
message), persists no assistant reply, and the user's own message remains
persisted as the only change to the message log. -/
theorem completion_failure_keeps_user_message (o : List Turn → Except Unit String)
    (db : DB) (u : Nat) (t0 : String) (now : Nat) (td : String)
    (hadm : deny_guard db u (pyStrip t0) now td = false)
    (ho : o (buildMessages (chat_db3 o db u (pyStrip t0) now td) u) = Except.error ()) :
    (chat o db u t0 now td).raised = true ∧
    (∀ s, Ev.reply s ∉ (chat o db u t0 now td).events) ∧
    Ev.persistAssistant ∉ (chat o db u t0 now td).events ∧
    (chat o db u t0 now td).db.messages =
      db.messages ++ [⟨u, "user", pyStrip t0, now⟩] := by
  rw [chat_not_denied hadm, chat_finish_error ho]
  refine ⟨rfl, ?_, ?_, ?_⟩
  · intro s
    unfold chat_events_pre
    cases hc1 : !has_active_subscription (chat_db1 db u (pyStrip t0) now) u now <;>
      cases htr : chat_trig db u (pyStrip t0) now td <;>
        simp [hc1, htr]
  · unfold chat_events_pre
    cases hc1 : !has_active_subscription (chat_db1 db u (pyStrip t0) now) u now <;>
      cases htr : chat_trig db u (pyStrip t0) now td <;>
        simp [hc1, htr]
  · rw [chat_db3_messages, chat_db2_messages]

/-- Witness for C5 as amended, at a concrete admitted message with a
failing provider. -/
theorem completion_failure_witness :
    deny_guard dbEmpty 7 (pyStrip "привет") 100 "d" = false ∧
    (chat failOracle dbEmpty 7 "привет" 100 "d").raised = true ∧
    (chat failOracle dbEmpty 7 "привет" 100 "d").db.messages =
      dbEmpty.messages ++ [⟨7, "user", pyStrip "привет", 100⟩] := by
  have h := completion_failure_keeps_user_message failOracle dbEmpty 7 "привет" 100 "d"
    (by decide) rfl
  exact ⟨by decide, h.1, h.2.2.2⟩

/-- C6 counterexample: at a concrete state with prior history and no stored
summary, a failing provider makes the /summary handler raise with an empty
reply list — the user receives no message at all, in particular no
"try again later" failure message as the claim asserts. -/
theorem on_demand_summary_failure_counterexample :
    has_history dbOneMsg 7 = true ∧
    get_summary dbOneMsg 7 = none ∧
    (summary_command failOracle dbOneMsg 7 100).replies = [] ∧
    (summary_command failOracle dbOneMsg 7 100).raised = true := by
  exact ⟨by decide, rfl, by decide, by decide⟩

/-- C6 as amended: on the on-demand summary request with prior history and
no stored summary, a completion-provider failure is not swallowed (unlike
the background path): the exception propagates out of the handler, which
therefore sends no reply and leaves the state unchanged; no explicit
"try again later" message is produced. -/
theorem on_demand_summary_failure_propagates (o : List Turn → Except Unit String)
    (db : DB) (u now : Nat)
    (hh : has_history db u = true)
    (hs : pyTruthy (get_summary db u) = false)
    (ho : generate_summary o db u now = Except.error ()) :
    summary_command o db u now = { db := db, replies := [], raised := true } := by
  unfold summary_command
  simp [hh, hs, ho]

/-- Witness for C6 as amended at a concrete state. -/
theorem on_demand_summary_failure_witness :
    has_history dbOneMsg 7 = true ∧
    (summary_command failOracle dbOneMsg 7 100).raised = true := by
  refine ⟨by decide, ?_⟩
  rw [on_demand_summary_failure_propagates failOracle dbOneMsg 7 100 (by decide) (by decide)
    rfl]

/-- C7 counterexample: with a stored Summary row whose content is the empty
string, the assembled prompt has no summary system turn even though a
Summary exists — refuting the claimed "if and only if a Summary exists". -/
theorem empty_summary_turn_counterexample :
    (dbEmptySummary.summaries 7).isSome = true ∧
    get_summary dbEmptySummary 7 = some "" ∧
    buildMessages dbEmptySummary 7 = [Turn.mk "system" SYSTEM_PROMPT] := by
  exact ⟨rfl, rfl, rfl⟩

/-- C7 as amended: the assembled prompt is exactly one fixed system turn;
then one labelled summary system turn if and only if a non-empty Summary is
stored (a Summary row with empty content adds no turn, by Python
truthiness); then the user's most recent at-most-`MAX_HISTORY` message rows
in chronological order, truncated only at whole-message granularity with
the oldest dropped first — never more than `MAX_HISTORY` historical turns
plus at most 2 system turns. -/
theorem prompt_assembly_shape (db : DB) (u : Nat) :
    ∃ sumTurns : List Turn,
      buildMessages db u =
        Turn.mk "system" SYSTEM_PROMPT :: sumTurns ++
          ((userRows db u).drop ((userRows db u).length - MAX_HISTORY)).map
            (fun r => Turn.mk r.role r.content) ∧
      ((pyTruthy (get_summary db u) = false ∧ sumTurns = []) ∨
        (∃ s, get_summary db u = some s ∧ (s == "") = false ∧
          sumTurns = [Turn.mk "system" (SUMMARY_LABEL ++ s)])) ∧
      sumTurns.length ≤ 1 ∧
      (buildMessages db u).length ≤ 2 + MAX_HISTORY := by
  have hlen := buildMessages_length_le db u
  cases hsum : get_summary db u with
  | none =>
    refine ⟨[], ?_, Or.inl ⟨rfl, rfl⟩, by simp, hlen⟩
    unfold buildMessages
    rw [hsum, load_last_messages_eq_drop]
  | some s =>
    cases hse : s == "" with
    | true =>
      refine ⟨[], ?_, Or.inl ⟨by simp [pyTruthy, hse], rfl⟩, by simp, hlen⟩
      unfold buildMessages
      rw [hsum, load_last_messages_eq_drop]
      simp [hse]
    | false =>
      refine ⟨[Turn.mk "system" (SUMMARY_LABEL ++ s)], ?_,
        Or.inr ⟨s, rfl, hse, rfl⟩, by simp, hlen⟩
      unfold buildMessages
      rw [hsum, load_last_messages_eq_drop]
      simp [hse]

/-- Witness for C7 as amended: a user with a non-empty stored Summary and
one message yields the fixed system turn, the labelled summary turn, and
the single historical turn. -/
theorem prompt_assembly_witness :
    buildMessages dbWithSummary 7 =
      [Turn.mk "system" SYSTEM_PROMPT,
       Turn.mk "system" (SUMMARY_LABEL ++ "резюме"),
       Turn.mk "user" "привет"] := by
  obtain ⟨st, h1, h2, h3, h4⟩ := prompt_assembly_shape dbWithSummary 7
  rw [h1]
  rcases h2 with ⟨hf, rfl⟩ | ⟨s, hs, hne, rfl⟩
  · exact absurd hf (by decide)
  · have hse : s = "резюме" := by
      have hgs : get_summary dbWithSummary 7 = some "резюме" := rfl
      rw [hgs] at hs
      cases hs
      rfl
    subst hse
    rfl

end Bot
